import Mathlib

/-!
Verification of the tabular merge-and-aggregate engine of the
File-Operations-Tool repository (source: src/final.py).

The embedding models pandas dataframes as `Table` (ordered named columns,
rows of cells), and translates the three core functions of the source:
`validate_columns`, `append_files` (with its file-loading loop) and
`summarize_csv_files` (groupby aggregation with a catch-all exception
handler that returns an empty dataframe).

Modelling notes, each tied to documented pandas behaviour of the calls
appearing in the source:
* `df.groupby(keys, as_index=False)` uses the pandas default `dropna=True`:
  rows with a null in any grouping column are excluded from every group.
* `groupby(...).agg("count")` counts non-null values.
* `groupby(...).agg("first")` returns the first NON-NULL value of the group
  in source row order (pandas `first` skips NA), null only when the whole
  group is null in that column.
* `groupby([])` raises `ValueError("No group keys passed!")`; a grouping or
  selected column absent from the frame raises a `KeyError` naming missing
  column(s).  These exceptions are modelled by `SummarizeError`; the
  `try/except` wrapper of `summarize_csv_files` collapses all of them to an
  empty table, exactly as the source returns `pd.DataFrame()`.
* Aggregation is dtype-sensitive, like pandas: a column holding any text
  cell is object-dtype.  `mean`, `median` and `std` raise on an
  object-dtype column; `sum`, `min` and `max` run Python reductions that
  concatenate or compare strings on all-text group slices and raise on
  slices mixing text with numbers; `count` and `first` accept any dtype.
  These type errors are the `typeMismatch` case of `SummarizeError` and
  reach the caller as the same empty table as every other failure.
* The order of the summary rows is left unspecified by the source (the spec
  flags this as an open question); the model fixes `List.dedup` order for
  the group keys.  No theorem below depends on that order.
* The sample standard deviation is irrational in general; its cell is
  represented symbolically by the constructor `Val.sqrtNum q`, meaning the
  square root of the rational `q`.  No claim depends on its value.
-/

/-- A cell value of a dataframe: a (rational) number, a text value, or the
symbolic square root of a rational (used only for std results). -/
inductive Val where
  | num (q : ℚ)
  | str (s : String)
  | sqrtNum (q : ℚ)
deriving DecidableEq

/-- A cell is a value or null (pandas NaN / None). -/
abbrev Cell := Option Val

/-- An in-memory table: ordered named columns and rows of cells.
Models a `pandas.DataFrame`. -/
structure Table where
  cols : List String
  rows : List (List Cell)
deriving DecidableEq

/-- The empty dataframe `pd.DataFrame()`. -/
def Table.empty : Table := { cols := [], rows := [] }

/-- Label lookup of a cell in one row: the value under the first column
whose name matches (pandas label indexing; column names are unique). -/
def lookupCell : List String → List Cell → String → Cell
  | [], _, _ => none
  | _ :: _, [], _ => none
  | c0 :: cols, v :: vs, c => if c0 = c then v else lookupCell cols vs c

/-- The cell of `row` under column `c` of table `t`. -/
def Table.getCell (t : Table) (row : List Cell) (c : String) : Cell :=
  lookupCell t.cols row c

/-- The non-null values of a list of cells. -/
def nonNull (cs : List Cell) : List Val := cs.filterMap id

/-- The numeric values of a list of cells (nulls and text skipped). -/
def numsOf (cs : List Cell) : List ℚ :=
  cs.filterMap (fun c => match c with | some (Val.num q) => some q | _ => none)

/-- Insert into a sorted list of rationals (used for the median). -/
def insertSorted (q : ℚ) : List ℚ → List ℚ
  | [] => [q]
  | x :: xs => if q ≤ x then q :: x :: xs else x :: insertSorted q xs

/-- Insertion sort of rationals (used for the median). -/
def sortQ (l : List ℚ) : List ℚ := l.foldr insertSorted []

/-- pandas `min` on a numeric-dtype column: smallest numeric value, skipping
nulls; null if none.  Object-dtype columns go through `pyAggMin`. -/
def aggMin (cs : List Cell) : Cell :=
  match numsOf cs with
  | [] => none
  | q :: qs => some (Val.num (qs.foldl min q))

/-- pandas `max` on a numeric-dtype column: largest numeric value, skipping
nulls; null if none.  Object-dtype columns go through `pyAggMax`. -/
def aggMax (cs : List Cell) : Cell :=
  match numsOf cs with
  | [] => none
  | q :: qs => some (Val.num (qs.foldl max q))

/-- pandas `sum` on a numeric-dtype column: null-skipping numeric total; 0
when all values are null.  Object-dtype columns go through `pyAggSum`. -/
def aggSum (cs : List Cell) : Cell := some (Val.num (numsOf cs).sum)

/-- pandas `count`: the number of NON-NULL values (not the row count). -/
def aggCount (cs : List Cell) : Cell :=
  some (Val.num ((nonNull cs).length : ℚ))

/-- pandas `mean` on a numeric-dtype column: null-skipping mean; null when
there is no numeric value.  On an object-dtype column pandas raises
instead; that path is handled in `applyAggOp`, never here. -/
def aggMean (cs : List Cell) : Cell :=
  let ns := numsOf cs
  if ns.isEmpty then none else some (Val.num (ns.sum / (ns.length : ℚ)))

/-- pandas `median` on a numeric-dtype column: null-skipping median (mean of
the two middle values for an even count); null when there is no numeric
value.  On an object-dtype column pandas raises instead; that path is
handled in `applyAggOp`, never here. -/
def aggMedian (cs : List Cell) : Cell :=
  let s := sortQ (numsOf cs)
  let n := s.length
  if n = 0 then none
  else if n % 2 = 1 then (s.get? (n / 2)).map Val.num
  else
    match s.get? (n / 2 - 1), s.get? (n / 2) with
    | some a, some b => some (Val.num ((a + b) / 2))
    | _, _ => none

/-- pandas `std` on a numeric-dtype column: sample (n-1) standard deviation,
null for fewer than two numeric values; the square root is kept symbolic
via `Val.sqrtNum`.  On an object-dtype column pandas raises instead; that
path is handled in `applyAggOp`, never here. -/
def aggStd (cs : List Cell) : Cell :=
  let ns := numsOf cs
  let n := ns.length
  if n < 2 then none
  else
    let m := ns.sum / (n : ℚ)
    some (Val.sqrtNum ((ns.map (fun x => (x - m) ^ 2)).sum / ((n : ℚ) - 1)))

/-- pandas `first`: first NON-NULL value of the group in source row order
(pandas `first` skips NA); null only when all values of the group are null. -/
def aggFirst (cs : List Cell) : Cell := (nonNull cs).head?

/-- Whether a value is numeric (numbers and the symbolic std result; text
is not). -/
def valIsNum : Val → Bool
  | Val.str _ => false
  | _ => true

/-- Whether a value is text. -/
def valIsStr : Val → Bool
  | Val.str _ => true
  | _ => false

/-- Whether a cell can live in a numeric-dtype column: null (NaN is a
float) or a number. -/
def cellIsNum : Cell → Bool
  | none => true
  | some v => valIsNum v

/-- The dtype of a dataframe column, determined by its full cell list: a
column is numeric-dtype iff no cell holds text; any text cell makes the
whole column object-dtype.  pandas derives the dtype from the loaded
values in the same way. -/
def numericCol (cs : List Cell) : Bool := cs.all cellIsNum

/-- The text values of a list of cells. -/
def strsOf (cs : List Cell) : List String :=
  cs.filterMap (fun c => match c with | some (Val.str s) => some s | _ => none)

/-- pandas `sum` on one group slice of an object-dtype column: a Python `+`
reduction over the non-null values - the numeric total for an all-numeric
slice (0 when empty), string concatenation for an all-text slice, and a
TypeError (`none`) when the slice mixes text with numbers. -/
def pyAggSum (cs : List Cell) : Option Cell :=
  if (nonNull cs).all valIsNum then some (aggSum cs)
  else if (nonNull cs).all valIsStr then
    some (some (Val.str (String.join (strsOf cs))))
  else none

/-- pandas `min` on one group slice of an object-dtype column: Python
comparison over the non-null values - the numeric minimum for an
all-numeric slice (null when empty), the lexicographically smallest
string for an all-text slice, and a TypeError (`none`) when the slice
mixes text with numbers. -/
def pyAggMin (cs : List Cell) : Option Cell :=
  if (nonNull cs).all valIsNum then some (aggMin cs)
  else if (nonNull cs).all valIsStr then
    some (match strsOf cs with
      | [] => none
      | s :: ss => some (Val.str (ss.foldl min s)))
  else none

/-- pandas `max` on one group slice of an object-dtype column: like
`pyAggMin` with the largest value instead. -/
def pyAggMax (cs : List Cell) : Option Cell :=
  if (nonNull cs).all valIsNum then some (aggMax cs)
  else if (nonNull cs).all valIsStr then
    some (match strsOf cs with
      | [] => none
      | s :: ss => some (Val.str (ss.foldl max s)))
  else none

/-- The pandas aggregation names that the source feeds to `.agg(...)`: the
seven values of the `operation_map` dict plus `"first"`, used by the
include-all-columns branch for passthrough columns. -/
inductive AggOp where
  | min
  | max
  | sum
  | count
  | mean
  | median
  | std
  | first
deriving DecidableEq

/-- One aggregation applied to one group slice of one column, returning
`none` where pandas raises.  `numeric` is the dtype of the FULL dataframe
column: the numeric-only operators mean/median/std raise on an
object-dtype column before producing any value; sum/min/max run Python
reductions whose success depends on the slice contents; count and first
accept any dtype and never raise. -/
def applyAggOp (op : AggOp) (numeric : Bool) (cs : List Cell) : Option Cell :=
  match op with
  | AggOp.count => some (aggCount cs)
  | AggOp.first => some (aggFirst cs)
  | AggOp.mean => if numeric then some (aggMean cs) else none
  | AggOp.median => if numeric then some (aggMedian cs) else none
  | AggOp.std => if numeric then some (aggStd cs) else none
  | AggOp.sum => if numeric then some (aggSum cs) else pyAggSum cs
  | AggOp.min => if numeric then some (aggMin cs) else pyAggMin cs
  | AggOp.max => if numeric then some (aggMax cs) else pyAggMax cs

/-- The `operation_map` dict of `summarize_csv_files` (src/final.py:90-98),
mapping each UI operation name to the pandas aggregation name it passes
to `.agg(...)`. -/
def operation_map : List (String × AggOp) :=
  [("Min", AggOp.min), ("Max", AggOp.max), ("Sum", AggOp.sum),
   ("Count", AggOp.count), ("Mean", AggOp.mean), ("Median", AggOp.median),
   ("Std", AggOp.std)]

/-- The dict access `operation_map[operation]`: `some` the pandas
aggregation name, or `none` (a `KeyError`) for an unknown operation. -/
def opLookup (op : String) : Option AggOp :=
  (operation_map.find? (fun kv => kv.1 = op)).map (fun kv => kv.2)

/-- An operation name accepted by `operation_map` (the seven UI choices). -/
def validOp (op : String) : Bool := (opLookup op).isSome

/-- The grouping-key tuple of one row: its cells under the group columns. -/
def keyOf (t : Table) (g : List String) (row : List Cell) : List Cell :=
  g.map (fun c => t.getCell row c)

/-- The rows that take part in grouping: pandas `groupby` default
`dropna=True` excludes every row with a null in some grouping column. -/
def validRows (t : Table) (g : List String) : List (List Cell) :=
  t.rows.filter (fun r => (keyOf t g r).all (fun c => c.isSome))

/-- The distinct grouping-key tuples present among the grouped rows.
The source leaves the summary row order unspecified (it relies on the
pandas default); the model fixes `List.dedup` order, and no theorem
depends on it. -/
def groupKeys (t : Table) (g : List String) : List (List Cell) :=
  ((validRows t g).map (keyOf t g)).dedup

/-- The rows of the group of key `k`, in source row order. -/
def groupOf (t : Table) (g : List String) (k : List Cell) : List (List Cell) :=
  (validRows t g).filter (fun r => keyOf t g r = k)

/-- The cells of column `c` across the given rows of table `t`. -/
def colCells (t : Table) (rows : List (List Cell)) (c : String) : List Cell :=
  rows.map (fun r => t.getCell r c)

/-- Whether pandas raises while aggregating column `c` of `df` under the
grouping `g`: the numeric-only operators mean/median/std fail exactly on
an object-dtype column (the dtype is rejected before any group value is
produced), and the reduction operators fail when some group slice makes
`applyAggOp` raise (a slice mixing text with numbers). -/
def aggFails (df : Table) (g : List String) (op : AggOp) (c : String) : Bool :=
  match op with
  | AggOp.mean | AggOp.median | AggOp.std =>
      !numericCol (colCells df df.rows c)
  | _ =>
      !((groupKeys df g).all (fun k =>
        (applyAggOp op (numericCol (colCells df df.rows c))
          (colCells df (groupOf df g k) c)).isSome))

/-- The summary cell of column `c` for the group of key `k` (meaningful
when `aggFails` is false for the column; the `getD` default is then never
consulted). -/
def aggCell (df : Table) (g : List String) (op : AggOp) (c : String)
    (k : List Cell) : Cell :=
  (applyAggOp op (numericCol (colCells df df.rows c))
    (colCells df (groupOf df g k) c)).getD none

/-- The exceptions that pandas can raise inside the `try` block of
`summarize_csv_files`, before the catch-all `except` sees them.
`typeMismatch` is the TypeError/DataError raised when an aggregation
cannot be computed on a column's data (a numeric-only operator on an
object-dtype column, or a mixed-type reduction), identifying the
operation and the offending column. -/
inductive SummarizeError where
  | badOperation (op : String)
  | noGroupKeys
  | missingColumns (names : List String)
  | typeMismatch (op : String) (name : String)
deriving DecidableEq

/-- The checks performed by `df.groupby(group_by_columns, as_index=False)`:
an empty key list raises `ValueError("No group keys passed!")`, and the
first grouping column absent from the frame raises a `KeyError` naming it. -/
def groupbyCheck (df : Table) (g : List String) : Option SummarizeError :=
  if g.isEmpty then some SummarizeError.noGroupKeys
  else
    match g.find? (fun c => c ∉ df.cols) with
    | some c => some (SummarizeError.missingColumns [c])
    | none => none

/-- The `include_all_columns = False` branch of `summarize_csv_files`
(src/final.py:108-110):
`df.groupby(group_by_columns, as_index=False)[selected_columns]
   .agg(operation_map[operation])`,
with the Python evaluation order of the raised exceptions: the groupby
checks, then the missing selected columns (a `KeyError` naming all of
them), then the `operation_map` access, and finally - while `.agg` runs,
column by column in selection order - the type errors of the aggregation
itself. -/
def summarizeCoreSelect (df : Table) (op : String)
    (sel g : List String) : Except SummarizeError Table :=
  match groupbyCheck df g with
  | some e => Except.error e
  | none =>
    let missingSel := sel.filter (fun c => c ∉ df.cols)
    if missingSel.isEmpty then
      match opLookup op with
      | none => Except.error (SummarizeError.badOperation op)
      | some f =>
        match sel.find? (fun c => aggFails df g f c) with
        | some c => Except.error (SummarizeError.typeMismatch op c)
        | none =>
          Except.ok
            { cols := g ++ sel,
              rows := (groupKeys df g).map (fun k =>
                k ++ sel.map (fun c => aggCell df g f c k)) }
    else Except.error (SummarizeError.missingColumns missingSel)

/-- The `include_all_columns = True` branch of `summarize_csv_files`
(src/final.py:100-107): the agg dict maps each selected column to the
operation and every other non-grouping source column to pandas `first`,
then `df.groupby(group_by_columns, as_index=False).agg(agg_dict)` runs.
Python evaluation order: `operation_map[operation]` is accessed while the
dict comprehension runs (only when `selected_columns` is non-empty), then
the groupby checks, then `.agg` raises a `KeyError` naming the dict
columns absent from the frame, and finally the aggregation itself raises
its type errors (only the selected columns can fail: the passthrough
columns use pandas `first`, which accepts any dtype).  The
`Option.getD AggOp.first` default is never consulted: when `sel` is
non-empty the guard has already ensured the lookup succeeds, and when
`sel` is empty the value is unused. -/
def summarizeCoreInclude (df : Table) (op : String)
    (sel g : List String) : Except SummarizeError Table :=
  if !sel.isEmpty && (opLookup op).isNone then
    Except.error (SummarizeError.badOperation op)
  else
    match groupbyCheck df g with
    | some e => Except.error e
    | none =>
      let passthrough := df.cols.filter (fun c => c ∉ sel ∧ c ∉ g)
      let missingSel := sel.filter (fun c => c ∉ df.cols)
      if missingSel.isEmpty then
        let f := (opLookup op).getD AggOp.first
        match sel.find? (fun c => aggFails df g f c) with
        | some c => Except.error (SummarizeError.typeMismatch op c)
        | none =>
          Except.ok
            { cols := g ++ (sel ++ passthrough),
              rows := (groupKeys df g).map (fun k =>
                k ++ (sel.map (fun c => aggCell df g f c k)
                   ++ passthrough.map (fun c =>
                        aggFirst (colCells df (groupOf df g k) c)))) }
      else Except.error (SummarizeError.missingColumns missingSel)

/-- The body of the `try` block of `summarize_csv_files` (src/final.py:89-112):
either branch of `include_all_columns`, producing the summary table or the
pandas exception it raises. -/
def summarizeCore (df : Table) (op : String) (sel g : List String)
    (include_all : Bool) : Except SummarizeError Table :=
  if include_all then summarizeCoreInclude df op sel g
  else summarizeCoreSelect df op sel g

/-- `summarize_csv_files` (src/final.py:81-115): the whole body runs inside
`try/except Exception`; any raised exception is caught, an error message is
displayed, and the empty dataframe `pd.DataFrame()` is returned. -/
def summarize_csv_files (df : Table) (operation : String)
    (selected_columns group_by_columns : List String)
    (include_all_columns : Bool) : Table :=
  match summarizeCore df operation selected_columns group_by_columns
      include_all_columns with
  | Except.ok t => t
  | Except.error _ => Table.empty

/-- `validate_columns` (src/final.py:43-49): `False` for an empty list,
otherwise every dataframe's unordered SET of column names must equal the
first one's (`set(df.columns)` ignores order and dtypes). -/
def validate_columns (dfs : List Table) : Bool :=
  match dfs with
  | [] => false
  | d0 :: _ =>
    (dfs.map (fun df => df.cols.toFinset)).all
      (fun cols => cols = d0.cols.toFinset)

/-- `pd.concat(dfs, axis=0, ignore_index=True)` (src/final.py:72): the rows
of all inputs concatenated in order, each row realigned by column name to
the column order of the first table (a name missing from a later table
would yield null; `append_files` only reaches this call when the column
sets agree). -/
def append_tables (dfs : List Table) : Table :=
  match dfs with
  | [] => Table.empty
  | d0 :: _ =>
    { cols := d0.cols,
      rows := (dfs.map (fun d =>
        d.rows.map (fun r => d0.cols.map (fun c => d.getCell r c)))).flatten }

/-- The loading collaborators of `append_files`: `read_csv` (src/final.py:16)
and `load_excel_sheet` (src/final.py:34), each returning `None` on failure.
Their bodies only call pandas readers on the file system, so they are
modelled as an environment of partial loading functions. -/
structure LoadEnv where
  read_csv : String → Option Table
  load_excel_sheet : String → String → Option Table

/-- Python `file_path.endswith(suffix)`. -/
def strEndsWith (p suffix : String) : Bool :=
  List.isSuffixOf suffix.data p.data

/-- `file_path.endswith(("xlsx", "xls"))` (src/final.py:56). -/
def endsWithExcel (p : String) : Bool :=
  strEndsWith p "xlsx" || strEndsWith p "xls"

/-- `os.path.basename(file_path)` (src/final.py:57): the part of the path
after the last slash. -/
def basename (p : String) : String :=
  String.mk ((p.data.reverse.takeWhile (fun c => c ≠ '/')).reverse)

/-- Python `dict.get(key)`: the value under the key, or `None`. -/
def dictGet (d : List (String × String)) (k : String) : Option String :=
  (d.find? (fun kv => kv.1 = k)).map (fun kv => kv.2)

/-- One iteration of the loading loop of `append_files` (src/final.py:55-65):
a spreadsheet path loads its selected sheet only when the sheet mapping
yields a truthy name (`if sheet_name:` is false for `None` and for the
empty string), any other path goes through `read_csv`; a `None` result is
skipped. -/
def loadFile (fs : LoadEnv) (selected_sheets : List (String × String))
    (file_path : String) : Option Table :=
  if endsWithExcel file_path then
    match dictGet selected_sheets (basename file_path) with
    | some sheet_name =>
      if sheet_name = "" then none
      else fs.load_excel_sheet file_path sheet_name
    | none => none
  else fs.read_csv file_path

/-- The list `dfs` accumulated by the loading loop of `append_files`:
the successfully loaded tables, in input order. -/
def loadedTables (fs : LoadEnv) (file_paths : List String)
    (selected_sheets : List (String × String)) : List Table :=
  file_paths.filterMap (loadFile fs selected_sheets)

/-- The two distinct failure conditions of `append_files`: the
`"No valid data frames to combine."` message (src/final.py:68) and the
`"Column mismatch detected..."` message (src/final.py:74). -/
inductive AppendError where
  | noData
  | schemaMismatch
deriving DecidableEq

/-- `append_files` (src/final.py:52-75): load every input, short-circuit to
the no-data condition when nothing loaded, validate the column sets, and
concatenate; both failure branches return `None` to the caller after
displaying their distinct message, modelled by the two `AppendError`
values. -/
def append_files (fs : LoadEnv) (file_paths : List String)
    (selected_sheets : List (String × String)) : Except AppendError Table :=
  if (loadedTables fs file_paths selected_sheets).isEmpty then
    Except.error AppendError.noData
  else if validate_columns (loadedTables fs file_paths selected_sheets) then
    Except.ok (append_tables (loadedTables fs file_paths selected_sheets))
  else Except.error AppendError.schemaMismatch

/-- Example loading environment in which every load fails. -/
def envNone : LoadEnv :=
  { read_csv := fun _ => none, load_excel_sheet := fun _ _ => none }

/-- Example loading environment with one readable delimited file. -/
def envCsvB : LoadEnv :=
  { read_csv := fun p =>
      if p = "b.csv" then some (Table.mk ["A"] [[some (Val.num 1)]]) else none,
    load_excel_sheet := fun _ _ => none }

/-- Example table with two rows of group key 1 and one row whose group key
is null. -/
def exDfGroups : Table :=
  { cols := ["g", "x"],
    rows := [[some (Val.num 1), some (Val.num 2)],
             [some (Val.num 1), some (Val.num 3)],
             [none, some (Val.num 4)]] }

/-- Example table for the include-all-columns claims: the first row of the
single group is null in the passthrough column `p`. -/
def exDfC7 : Table :=
  { cols := ["g", "x", "p"],
    rows := [[some (Val.num 1), some (Val.num 2), none],
             [some (Val.num 1), some (Val.num 3), some (Val.num 7)]] }

/-- Example single-column table for the append claims. -/
def exTabA : Table := { cols := ["A"], rows := [[some (Val.num 1)]] }

/-- A second example table with the same column set as `exTabA`. -/
def exTabB : Table := { cols := ["A"], rows := [[some (Val.num 2)]] }

/-- Looking a column up in a row built by mapping over the same column list
yields the mapped value. -/
theorem lookupCell_map_self (C : List String) (f : String → Cell) (c : String)
    (hc : c ∈ C) : lookupCell C (C.map f) c = f c := by
  induction C with
  | nil => cases hc
  | cons c0 C ih =>
    simp only [List.map_cons, lookupCell]
    by_cases h : c0 = c
    · subst h; simp
    · rw [if_neg h]
      exact ih ((List.mem_cons.mp hc).resolve_left (fun hcc => h hcc.symm))

/-- Lookup in an appended column list, hit inside the left part. -/
theorem lookupCell_map_append_left (C D : List String) (f : String → Cell)
    (r2 : List Cell) (c : String) (hc : c ∈ C) :
    lookupCell (C ++ D) (C.map f ++ r2) c = f c := by
  induction C with
  | nil => cases hc
  | cons c0 C ih =>
    simp only [List.map_cons, List.cons_append, lookupCell]
    by_cases h : c0 = c
    · subst h; simp
    · rw [if_neg h]
      exact ih ((List.mem_cons.mp hc).resolve_left (fun hcc => h hcc.symm))

/-- Lookup in an appended column list, skipping over the left part. -/
theorem lookupCell_map_append_right (C D : List String) (f : String → Cell)
    (r2 : List Cell) (c : String) (hc : c ∉ C) :
    lookupCell (C ++ D) (C.map f ++ r2) c = lookupCell D r2 c := by
  induction C with
  | nil => simp
  | cons c0 C ih =>
    simp only [List.map_cons, List.cons_append, lookupCell]
    rw [if_neg (fun h => hc (by rw [← h]; exact List.mem_cons_self c0 C))]
    exact ih (fun h => hc (List.mem_cons_of_mem c0 h))

/-- With a non-empty list of group columns all present in the frame, the
`groupby` construction raises nothing. -/
theorem groupbyCheck_eq_none (df : Table) (g : List String) (hne : g ≠ [])
    (hg : ∀ c ∈ g, c ∈ df.cols) : groupbyCheck df g = none := by
  have h1 : g.isEmpty = false := by
    cases g with
    | nil => exact absurd rfl hne
    | cons a l => rfl
  have h2 : g.find? (fun c => !decide (c ∈ df.cols)) = none := by
    rw [List.find?_eq_none]
    intro x hx
    simpa using hg x hx
  simp [groupbyCheck, h1, h2]

/-- Selected columns all present in the frame leave no missing name. -/
theorem missingSel_eq_nil (df : Table) (sel : List String)
    (hs : ∀ c ∈ sel, c ∈ df.cols) :
    sel.filter (fun c => decide (c ∉ df.cols)) = [] := by
  rw [List.filter_eq_nil_iff]
  intro c hc
  simpa using hs c hc

/-- A row of a group is a row of the dataframe. -/
theorem mem_rows_of_mem_groupOf (df : Table) (g : List String) (k : List Cell)
    (r : List Cell) (hr : r ∈ groupOf df g k) : r ∈ df.rows :=
  List.mem_of_mem_filter (List.mem_of_mem_filter hr)

/-- A group slice of a numeric-dtype column is numeric. -/
theorem numericCol_slice (df : Table) (g : List String) (k : List Cell)
    (c : String) (h : numericCol (colCells df df.rows c) = true) :
    numericCol (colCells df (groupOf df g k) c) = true := by
  rw [numericCol, List.all_eq_true] at h ⊢
  intro x hx
  rw [colCells, List.mem_map] at hx
  obtain ⟨r, hr, rfl⟩ := hx
  exact h _ (by
    rw [colCells, List.mem_map]
    exact ⟨r, mem_rows_of_mem_groupOf df g k r hr, rfl⟩)

/-- In a numeric column every non-null value is numeric. -/
theorem allNums_of_numericCol (cs : List Cell)
    (h : numericCol cs = true) : (nonNull cs).all valIsNum = true := by
  rw [List.all_eq_true]
  intro v hv
  rw [nonNull, List.mem_filterMap] at hv
  obtain ⟨cell, hc, hid⟩ := hv
  rw [numericCol, List.all_eq_true] at h
  have hnum := h cell hc
  cases cell with
  | none => cases hid
  | some w =>
    cases hid
    simpa [cellIsNum] using hnum

/-- On a numeric-dtype column no aggregation raises. -/
theorem applyAggOp_isSome_of_numeric (op : AggOp) (cs : List Cell) :
    (applyAggOp op true cs).isSome = true := by
  cases op <;> simp [applyAggOp]

/-- No aggregation of a numeric-dtype column raises. -/
theorem aggFails_false_of_numeric (df : Table) (g : List String) (f : AggOp)
    (c : String) (h : numericCol (colCells df df.rows c) = true) :
    aggFails df g f c = false := by
  cases f <;> simp [aggFails, h, List.all_eq_true] <;>
    exact fun k _ => applyAggOp_isSome_of_numeric _ _

/-- Success shape of the `include_all_columns = False` branch: all checks
pass and no selected column's aggregation raises. -/
theorem summarizeCoreSelect_ok (df : Table) (op : String) (sel g : List String)
    (f : AggOp) (hop : opLookup op = some f) (hne : g ≠ [])
    (hg : ∀ c ∈ g, c ∈ df.cols) (hs : ∀ c ∈ sel, c ∈ df.cols)
    (hty : ∀ c ∈ sel, aggFails df g f c = false) :
    summarizeCoreSelect df op sel g =
      Except.ok
        { cols := g ++ sel,
          rows := (groupKeys df g).map (fun k =>
            k ++ sel.map (fun c => aggCell df g f c k)) } := by
  unfold summarizeCoreSelect
  rw [groupbyCheck_eq_none df g hne hg]
  have hfil := missingSel_eq_nil df sel hs
  have hfind : sel.find? (fun c => aggFails df g f c) = none := by
    rw [List.find?_eq_none]
    intro c hc
    simp [hty c hc]
  simp [hfil, hop, hfind]
  exact hs

/-- Success shape of the `include_all_columns = True` branch: all checks
pass and no selected column's aggregation raises. -/
theorem summarizeCoreInclude_ok (df : Table) (op : String) (sel g : List String)
    (f : AggOp) (hop : opLookup op = some f) (hne : g ≠ [])
    (hg : ∀ c ∈ g, c ∈ df.cols) (hs : ∀ c ∈ sel, c ∈ df.cols)
    (hty : ∀ c ∈ sel, aggFails df g f c = false) :
    summarizeCoreInclude df op sel g =
      Except.ok
        { cols := g ++ (sel ++ df.cols.filter (fun c => c ∉ sel ∧ c ∉ g)),
          rows := (groupKeys df g).map (fun k =>
            k ++ (sel.map (fun c => aggCell df g f c k)
               ++ (df.cols.filter (fun c => c ∉ sel ∧ c ∉ g)).map (fun c =>
                    aggFirst (colCells df (groupOf df g k) c)))) } := by
  unfold summarizeCoreInclude
  have hno : (opLookup op).isNone = false := by rw [hop]; rfl
  rw [groupbyCheck_eq_none df g hne hg]
  have hfil := missingSel_eq_nil df sel hs
  have hfind : sel.find? (fun c => aggFails df g f c) = none := by
    rw [List.find?_eq_none]
    intro c hc
    simp [hty c hc]
  simp [hno, hfil, hop, hfind]
  exact hs

/-- The number of summary rows is the number of distinct grouping-key
tuples among the rows that survive the null drop. -/
theorem length_groupKeys (t : Table) (g : List String) :
    (groupKeys t g).length = ((validRows t g).map (keyOf t g)).toFinset.card := by
  rw [groupKeys, List.card_toFinset]

/-- Every group key comes from some surviving row. -/
theorem keyOf_of_mem_groupKeys (t : Table) (g : List String) (k : List Cell)
    (hk : k ∈ groupKeys t g) : ∃ r ∈ validRows t g, keyOf t g r = k := by
  rw [groupKeys, List.mem_dedup, List.mem_map] at hk
  exact hk

/-- `validate_columns` on a non-empty list decides exactly the equality of
every column set with the first one. -/
theorem validate_columns_iff (d0 : Table) (rest : List Table) :
    validate_columns (d0 :: rest) = true ↔
      ∀ d ∈ d0 :: rest, d.cols.toFinset = d0.cols.toFinset := by
  simp [validate_columns]

/-- `append_files` reports the no-data condition exactly when nothing
loaded. -/
theorem append_files_noData_iff (fs : LoadEnv) (ps : List String)
    (sheets : List (String × String)) :
    append_files fs ps sheets = Except.error AppendError.noData ↔
      loadedTables fs ps sheets = [] := by
  cases hl : loadedTables fs ps sheets with
  | nil => simp [append_files, hl]
  | cons d0 rest =>
    by_cases hv : validate_columns (d0 :: rest) = true <;>
      simp [append_files, hl, hv]

/-- Claim C6: `validate_columns` returns false on an empty sequence, and on
a non-empty sequence returns true exactly when every table's unordered set
of column names equals the first table's; being a comparison of name sets,
it ignores column order and data types. -/
theorem validate_columns_correct :
    validate_columns [] = false ∧
      ∀ (d0 : Table) (rest : List Table),
        (validate_columns (d0 :: rest) = true ↔
          ∀ d ∈ d0 :: rest, d.cols.toFinset = d0.cols.toFinset) :=
  ⟨rfl, fun d0 rest => validate_columns_iff d0 rest⟩

/-- Witness for C6 at concrete tables: the empty case, and two tables whose
column sets agree though their column order differs. -/
theorem validate_columns_correct_witness :
    validate_columns [] = false ∧
    validate_columns [Table.mk ["A", "B"] [], Table.mk ["B", "A"] []] = true :=
  ⟨validate_columns_correct.1,
    (validate_columns_correct.2 (Table.mk ["A", "B"] [])
      [Table.mk ["B", "A"] []]).mpr (by decide)⟩

/-- Claim C4: appending tables with identical column sets yields a table
whose row count is the exact sum of the input row counts (no
deduplication), whose rows are the inputs' rows in concatenation order
with each input's internal order preserved, and in which each row keeps
its original value under every column name. -/
theorem append_preserves_rows_and_count (d0 : Table) (rest : List Table)
    (hcols : ∀ d ∈ d0 :: rest, d.cols.toFinset = d0.cols.toFinset) :
    (append_tables (d0 :: rest)).rows.length
        = ((d0 :: rest).map (fun d => d.rows.length)).sum ∧
    (append_tables (d0 :: rest)).rows
        = ((d0 :: rest).map (fun d =>
            d.rows.map (fun r => d0.cols.map (fun c => d.getCell r c)))).flatten ∧
    ∀ d ∈ d0 :: rest, ∀ r ∈ d.rows, ∀ c ∈ d0.cols,
      lookupCell (append_tables (d0 :: rest)).cols
          (d0.cols.map (fun c => d.getCell r c)) c = d.getCell r c := by
  refine ⟨?_, rfl, ?_⟩
  · simp only [append_tables, List.length_flatten, List.map_map]
    congr 1
    apply List.map_congr_left
    intro d _
    simp [Function.comp]
  · intro d _ r _ c hc
    exact lookupCell_map_self d0.cols (fun c => d.getCell r c) c hc

/-- Witness for C4 at two concrete one-row tables: the output row count is
the sum of the input row counts. -/
theorem append_preserves_rows_and_count_witness :
    (append_tables [exTabA, exTabB]).rows.length
        = ([exTabA, exTabB].map (fun d => d.rows.length)).sum :=
  (append_preserves_rows_and_count exTabA [exTabB] (by decide)).1

/-- Claim C5: with zero usable input tables (nothing loaded), `append_files`
fails with the distinct no-data condition, never with the schema-mismatch
condition; the schema mismatch is reported only when some loaded table's
column set differs from the first loaded table's. -/
theorem append_files_nodata_not_mismatch (fs : LoadEnv) (ps : List String)
    (sheets : List (String × String)) :
    (loadedTables fs ps sheets = [] →
        append_files fs ps sheets = Except.error AppendError.noData) ∧
    (append_files fs ps sheets = Except.error AppendError.schemaMismatch →
        ∃ d0 rest, loadedTables fs ps sheets = d0 :: rest ∧
          ∃ d ∈ d0 :: rest, d.cols.toFinset ≠ d0.cols.toFinset) := by
  constructor
  · intro h
    simp [append_files, h]
  · intro h
    cases hl : loadedTables fs ps sheets with
    | nil =>
      rw [(append_files_noData_iff fs ps sheets).mpr hl] at h
      simp at h
    | cons d0 rest =>
      by_cases hv : validate_columns (d0 :: rest) = true
      · have : append_files fs ps sheets = Except.ok (append_tables (d0 :: rest)) := by
          simp [append_files, hl, hv]
        rw [this] at h
        simp at h
      · have hxx : ¬ ∀ d ∈ d0 :: rest, d.cols.toFinset = d0.cols.toFinset :=
          fun hAll => hv ((validate_columns_iff d0 rest).mpr hAll)
        push_neg at hxx
        obtain ⟨d, hd, hne⟩ := hxx
        exact ⟨d0, rest, rfl, d, hd, hne⟩

/-- Witness for C5: an environment where every load fails yields the
no-data condition. -/
theorem append_files_nodata_not_mismatch_witness :
    append_files envNone ["a.csv"] [] = Except.error AppendError.noData :=
  (append_files_nodata_not_mismatch envNone ["a.csv"] []).1 (by decide)

/-- Claim C10 (implicit): a spreadsheet input whose base name has no truthy
entry in the selected-sheets mapping is silently skipped by the loading
loop of `append_files` - it contributes no table and raises no error of
its own - and the no-data condition is reported exactly when every input
was excluded or failed to load. -/
theorem append_skips_unselected_excel (fs : LoadEnv) (ps1 ps2 : List String)
    (p : String) (sheets : List (String × String))
    (hx : endsWithExcel p = true)
    (hs : dictGet sheets (basename p) = none ∨
          dictGet sheets (basename p) = some "") :
    loadedTables fs (ps1 ++ p :: ps2) sheets
        = loadedTables fs (ps1 ++ ps2) sheets ∧
    (append_files fs (ps1 ++ p :: ps2) sheets = Except.error AppendError.noData
        ↔ loadedTables fs (ps1 ++ ps2) sheets = []) := by
  have hskip : loadFile fs sheets p = none := by
    unfold loadFile
    rw [if_pos hx]
    rcases hs with h | h <;> rw [h]
    · simp
  have hsame : loadedTables fs (ps1 ++ p :: ps2) sheets
      = loadedTables fs (ps1 ++ ps2) sheets := by
    unfold loadedTables
    rw [List.filterMap_append, List.filterMap_append, List.filterMap_cons, hskip]
  refine ⟨hsame, ?_⟩
  rw [append_files_noData_iff, hsame]

/-- Witness for C10: one unreadable-sheet spreadsheet next to one readable
delimited file; the spreadsheet is skipped and no no-data condition
arises. -/
theorem append_skips_unselected_excel_witness :
    loadedTables envCsvB ["b.csv", "a.xlsx"] []
        = loadedTables envCsvB ["b.csv"] [] ∧
    (append_files envCsvB ["b.csv", "a.xlsx"] [] = Except.error AppendError.noData
        ↔ loadedTables envCsvB ["b.csv"] [] = []) :=
  append_skips_unselected_excel envCsvB ["b.csv"] [] "a.xlsx" []
    (by decide) (Or.inl (by decide))

/-- A valid operation name makes the `operation_map` access succeed. -/
theorem opLookup_isSome_of_validOp (op : String) (hop : validOp op = true) :
    ∃ f, opLookup op = some f := by
  unfold validOp at hop
  cases h : opLookup op with
  | none => rw [h] at hop; cases hop
  | some f => exact ⟨f, rfl⟩

/-- Claim C2: calling summarize with an empty group-column list is rejected
inside the component itself - the groupby construction raises the distinct
no-group-keys condition, which the catch-all handler turns into the empty
table - so the call never crashes, regardless of caller screening.  The
condition is distinct from every other `SummarizeError`; at the return
value the caller sees the empty table. -/
theorem summarize_empty_grouping_rejected (df : Table) (op : String)
    (sel : List String) (inc : Bool) (hop : validOp op = true) :
    summarizeCore df op sel [] inc = Except.error SummarizeError.noGroupKeys ∧
    summarize_csv_files df op sel [] inc = Table.empty := by
  obtain ⟨f, hf⟩ := opLookup_isSome_of_validOp op hop
  have hno : (opLookup op).isNone = false := by rw [hf]; rfl
  have hcheck : groupbyCheck df [] = some SummarizeError.noGroupKeys := rfl
  have hcore : summarizeCore df op sel [] inc
      = Except.error SummarizeError.noGroupKeys := by
    cases inc with
    | false => simp [summarizeCore, summarizeCoreSelect, hcheck]
    | true => simp [summarizeCore, summarizeCoreInclude, hno, hcheck]
  exact ⟨hcore, by simp [summarize_csv_files, hcore]⟩

/-- Witness for C2 at a concrete table and operation. -/
theorem summarize_empty_grouping_rejected_witness :
    summarizeCore (Table.mk ["A"] []) "Sum" [] [] false
        = Except.error SummarizeError.noGroupKeys ∧
    summarize_csv_files (Table.mk ["A"] []) "Sum" [] [] false = Table.empty :=
  summarize_empty_grouping_rejected (Table.mk ["A"] []) "Sum" [] false (by decide)

/-- Claim C9 (implicit): `summarize_csv_files` is total - every exception
raised inside the summarization is caught by the wrapper, which returns
the empty table, so the same return value stands for every failure cause
and a caller cannot tell them apart from the return value alone. -/
theorem summarize_total_empty_on_error (df : Table) (op : String)
    (sel g : List String) (inc : Bool) (e : SummarizeError)
    (h : summarizeCore df op sel g inc = Except.error e) :
    summarize_csv_files df op sel g inc = Table.empty := by
  simp [summarize_csv_files, h]

/-- Witness for C9: a missing-column failure is returned as the empty
table. -/
theorem summarize_total_empty_on_error_witness :
    summarize_csv_files (Table.mk ["A"] []) "Sum" ["X"] ["A"] false = Table.empty :=
  summarize_total_empty_on_error (Table.mk ["A"] []) "Sum" ["X"] ["A"] false
    (SummarizeError.missingColumns ["X"]) (by rfl)

/-- Counterexample to Claim C3 as stated: with an empty group-column list
and a missing value column, the raised condition is the no-group-keys
error, which does not identify the missing column "X" - so a call with a
missing column can fail with an unrelated error. -/
theorem summarize_missing_column_cex :
    summarizeCore (Table.mk ["A"] []) "Sum" ["X"] [] false
        = Except.error SummarizeError.noGroupKeys ∧
    SummarizeError.noGroupKeys ≠ SummarizeError.missingColumns ["X"] :=
  ⟨rfl, by decide⟩

/-- Claim C3 as amended: provided the operation is valid and the
group-column list is non-empty, a call naming a column absent from the
table fails with the missing-columns condition, whose name list is
non-empty and names only columns that were requested and are absent; the
wrapper returns the empty table.  (When several columns are missing the
condition may name only the first missing group column, and with an empty
group-column list the no-group-keys error pre-empts it.) -/
theorem summarize_missing_column_error (df : Table) (op : String)
    (sel g : List String) (inc : Bool) (hop : validOp op = true) (hg : g ≠ [])
    (hmiss : ∃ c ∈ sel ++ g, c ∉ df.cols) :
    ∃ ns, summarizeCore df op sel g inc
            = Except.error (SummarizeError.missingColumns ns) ∧
      ns ≠ [] ∧ (∀ c ∈ ns, c ∈ sel ++ g ∧ c ∉ df.cols) ∧
      summarize_csv_files df op sel g inc = Table.empty := by
  obtain ⟨f, hf⟩ := opLookup_isSome_of_validOp op hop
  have hno : (opLookup op).isNone = false := by rw [hf]; rfl
  have hgE : g.isEmpty = false := by
    cases g with
    | nil => exact absurd rfl hg
    | cons a l => rfl
  cases hfind : g.find? (fun c => !decide (c ∈ df.cols)) with
  | some c =>
    have hcheck : groupbyCheck df g = some (SummarizeError.missingColumns [c]) := by
      simp [groupbyCheck, hgE, hfind]
    have hcg : c ∈ g := List.mem_of_find?_eq_some hfind
    have hcn : c ∉ df.cols := by
      have := List.find?_some hfind
      simpa using this
    have hcore : summarizeCore df op sel g inc
        = Except.error (SummarizeError.missingColumns [c]) := by
      cases inc with
      | false => simp [summarizeCore, summarizeCoreSelect, hcheck]
      | true => simp [summarizeCore, summarizeCoreInclude, hno, hcheck]
    refine ⟨[c], hcore, by simp, ?_, by simp [summarize_csv_files, hcore]⟩
    intro x hx
    rw [List.mem_singleton] at hx
    subst hx
    exact ⟨List.mem_append_right sel hcg, hcn⟩
  | none =>
    have hgAll : ∀ x ∈ g, x ∈ df.cols := by
      have := List.find?_eq_none.mp hfind
      intro x hx
      have hb := this x hx
      simpa using hb
    have hcheck : groupbyCheck df g = none := by
      simp [groupbyCheck, hgE, hfind]
    obtain ⟨c, hcm, hcn⟩ := hmiss
    have hcs : c ∈ sel := by
      rcases List.mem_append.mp hcm with h | h
      · exact h
      · exact absurd (hgAll c h) hcn
    have hcfil : c ∈ sel.filter (fun c => !decide (c ∈ df.cols)) := by
      rw [List.mem_filter]
      exact ⟨hcs, by simpa using hcn⟩
    have hMne : sel.filter (fun c => !decide (c ∈ df.cols)) ≠ [] := by
      intro hnil
      rw [hnil] at hcfil
      cases hcfil
    have hEmp : (sel.filter (fun c => !decide (c ∈ df.cols))).isEmpty = false := by
      cases hM : sel.filter (fun c => !decide (c ∈ df.cols)) with
      | nil => exact absurd hM hMne
      | cons a l => rfl
    have hcore : summarizeCore df op sel g inc
        = Except.error (SummarizeError.missingColumns
            (sel.filter (fun c => !decide (c ∈ df.cols)))) := by
      cases inc with
      | false => simp [summarizeCore, summarizeCoreSelect, hcheck, hEmp]
      | true => simp [summarizeCore, summarizeCoreInclude, hno, hcheck, hEmp]
    refine ⟨sel.filter (fun c => !decide (c ∈ df.cols)), hcore, hMne, ?_,
      by simp [summarize_csv_files, hcore]⟩
    intro x hx
    rw [List.mem_filter] at hx
    exact ⟨List.mem_append_left g hx.1, by simpa using hx.2⟩

/-- Witness for the amended C3 at a concrete call with one missing value
column. -/
theorem summarize_missing_column_error_witness :
    ∃ ns, summarizeCore (Table.mk ["A"] []) "Sum" ["X"] ["A"] false
            = Except.error (SummarizeError.missingColumns ns) ∧
      ns ≠ [] ∧ (∀ c ∈ ns, c ∈ ["X"] ++ ["A"] ∧ c ∉ (Table.mk ["A"] []).cols) ∧
      summarize_csv_files (Table.mk ["A"] []) "Sum" ["X"] ["A"] false = Table.empty :=
  summarize_missing_column_error (Table.mk ["A"] []) "Sum" ["X"] ["A"] false
    (by decide) (by decide) (by decide)

/-- A numeric-only operator applied to a text-valued column raises the type
error (pandas TypeError/DataError on an object-dtype column), and the
wrapper returns the empty table - the type-incompatible-operator failure
path of the spec's AggregationFailure. -/
theorem summarize_mean_on_text_errors :
    summarizeCore (Table.mk ["g", "s"] [[some (Val.num 1), some (Val.str "a")]])
        "Mean" ["s"] ["g"] false
      = Except.error (SummarizeError.typeMismatch "Mean" "s") ∧
    summarize_csv_files
        (Table.mk ["g", "s"] [[some (Val.num 1), some (Val.str "a")]])
        "Mean" ["s"] ["g"] false = Table.empty :=
  ⟨rfl, rfl⟩

/-- Counterexample to Claim C1 as stated: a table whose single row has a
null group-key value produces an EMPTY summary (pandas groupby drops null
keys by default), although one distinct group-column value-combination
(the null one) is present in the table - so null rows do not form a group
and the row count falls short of the distinct combinations present. -/
theorem summarize_null_group_dropped_cex :
    (summarize_csv_files (Table.mk ["g", "x"] [[none, some (Val.num 1)]])
        "Sum" ["x"] ["g"] false).rows.length = 0 ∧
    ((Table.mk ["g", "x"] [[none, some (Val.num 1)]]).rows.map
        (keyOf (Table.mk ["g", "x"] [[none, some (Val.num 1)]]) ["g"])).toFinset.card
      = 1 :=
  ⟨rfl, by decide⟩

/-- Claim C1 as amended: for a successful call (valid operation, non-empty
group-column list, all named columns present, value columns disjoint from
group columns and of numeric dtype - the UI offers only numeric columns
for selection, and a non-numeric value column makes the call raise and
return the empty table instead), the summary has exactly one row per
distinct group-column value-combination among the rows with NO null
group-key cell; rows with a null in some group column are dropped by the
pandas default and form no group. -/
theorem summarize_rowcount_distinct_nonnull_keys (df : Table) (op : String)
    (sel g : List String) (inc : Bool) (hop : validOp op = true) (hg : g ≠ [])
    (hgc : ∀ c ∈ g, c ∈ df.cols) (hsc : ∀ c ∈ sel, c ∈ df.cols)
    (hdisj : ∀ c ∈ sel, c ∉ g)
    (hnum : ∀ c ∈ sel, numericCol (colCells df df.rows c) = true) :
    (summarize_csv_files df op sel g inc).rows.length
      = ((validRows df g).map (keyOf df g)).toFinset.card := by
  obtain ⟨f, hf⟩ := opLookup_isSome_of_validOp op hop
  have hty : ∀ c ∈ sel, aggFails df g f c = false :=
    fun c hc => aggFails_false_of_numeric df g f c (hnum c hc)
  cases inc with
  | false =>
    have hok := summarizeCoreSelect_ok df op sel g f hf hg hgc hsc hty
    simp [summarize_csv_files, summarizeCore, hok, ← length_groupKeys]
  | true =>
    have hok := summarizeCoreInclude_ok df op sel g f hf hg hgc hsc hty
    simp [summarize_csv_files, summarizeCore, hok, ← length_groupKeys]

/-- Witness for the amended C1 at a concrete table with one null group
key: two distinct non-null keys, two summary rows. -/
theorem summarize_rowcount_distinct_nonnull_keys_witness :
    (summarize_csv_files exDfGroups "Sum" ["x"] ["g"] false).rows.length
      = ((validRows exDfGroups ["g"]).map (keyOf exDfGroups ["g"])).toFinset.card :=
  summarize_rowcount_distinct_nonnull_keys exDfGroups "Sum" ["x"] ["g"] false
    (by decide) (by decide) (by decide) (by decide) (by decide) (by decide)

/-- Counterexample to Claim C7 as stated: in `exDfC7` the single group's
FIRST row (in source order) has a null in the passthrough column `p`, yet
the include-all-columns output carries 7 there - pandas `first` skips
nulls and returns the first NON-NULL value, not the first row's value. -/
theorem include_all_first_value_cex :
    (groupOf exDfC7 ["g"] [some (Val.num 1)]).head?
        = some [some (Val.num 1), some (Val.num 2), none] ∧
    Table.getCell exDfC7 [some (Val.num 1), some (Val.num 2), none] "p" = none ∧
    ((summarize_csv_files exDfC7 "Count" ["x"] ["g"] true).rows.map
        (fun row => lookupCell
          (summarize_csv_files exDfC7 "Count" ["x"] ["g"] true).cols row "p"))
      = [some (Val.num 7)] :=
  ⟨rfl, rfl, rfl⟩

/-- Claim C7 as amended: for a successful include-all-columns call (the
value columns numeric, as the UI guarantees - a non-numeric value column
makes the call raise and return the empty table instead), the output
columns are the group columns, then the aggregated value columns (the
aggregation results are retained, not discarded), then one column for
every other source column; each value column holds the aggregation result
for the group, and each passthrough column holds, per group, the first
NON-NULL value of the group in source row order (null when the whole
group is null there) - pandas `first` semantics, not the literal first
row's value. -/
theorem include_all_layers_aggregates_and_first_nonnull (df : Table)
    (op : String) (sel g : List String) (f : AggOp)
    (hf : opLookup op = some f) (hg : g ≠ []) (hgc : ∀ c ∈ g, c ∈ df.cols)
    (hsc : ∀ c ∈ sel, c ∈ df.cols) (hdisj : ∀ c ∈ sel, c ∉ g)
    (hnum : ∀ c ∈ sel, numericCol (colCells df df.rows c) = true) :
    (summarize_csv_files df op sel g true).cols
        = g ++ (sel ++ df.cols.filter (fun c => c ∉ sel ∧ c ∉ g)) ∧
    ∀ k ∈ groupKeys df g,
      ∃ row ∈ (summarize_csv_files df op sel g true).rows,
        (∀ c ∈ sel, lookupCell (summarize_csv_files df op sel g true).cols row c
            = aggCell df g f c k) ∧
        (∀ c ∈ df.cols, c ∉ sel → c ∉ g →
            lookupCell (summarize_csv_files df op sel g true).cols row c
              = aggFirst (colCells df (groupOf df g k) c)) := by
  have hty : ∀ c ∈ sel, aggFails df g f c = false :=
    fun c hc => aggFails_false_of_numeric df g f c (hnum c hc)
  have hok := summarizeCoreInclude_ok df op sel g f hf hg hgc hsc hty
  have ht : summarize_csv_files df op sel g true
      = { cols := g ++ (sel ++ df.cols.filter (fun c => c ∉ sel ∧ c ∉ g)),
          rows := (groupKeys df g).map (fun k =>
            k ++ (sel.map (fun c => aggCell df g f c k)
               ++ (df.cols.filter (fun c => c ∉ sel ∧ c ∉ g)).map (fun c =>
                    aggFirst (colCells df (groupOf df g k) c)))) } := by
    simp [summarize_csv_files, summarizeCore, hok]
  rw [ht]
  refine ⟨rfl, ?_⟩
  intro k hk
  obtain ⟨r, hr, hkey⟩ := keyOf_of_mem_groupKeys df g k hk
  subst hkey
  refine ⟨keyOf df g r ++ (sel.map (fun c =>
        aggCell df g f c (keyOf df g r))
      ++ (df.cols.filter (fun c => c ∉ sel ∧ c ∉ g)).map (fun c =>
          aggFirst (colCells df (groupOf df g (keyOf df g r)) c))),
    List.mem_map_of_mem _ hk, ?_, ?_⟩
  · intro c hc
    simp only [keyOf]
    rw [lookupCell_map_append_right g _ (fun c => df.getCell r c) _ c (hdisj c hc),
      lookupCell_map_append_left sel _ _ _ c hc]
  · intro c hcm hcs hcg
    have hcp : c ∈ df.cols.filter (fun c => c ∉ sel ∧ c ∉ g) := by
      rw [List.mem_filter]
      exact ⟨hcm, by simp [hcs, hcg]⟩
    simp only [keyOf]
    rw [lookupCell_map_append_right g _ (fun c => df.getCell r c) _ c hcg,
      lookupCell_map_append_right sel _ _ _ c hcs,
      lookupCell_map_self _ _ c hcp]

/-- Witness for the amended C7 at `exDfC7` and the group of key 1: the
aggregated column x is retained and the passthrough column p carries the
first non-null group value. -/
theorem include_all_layers_aggregates_and_first_nonnull_witness :
    ∃ row ∈ (summarize_csv_files exDfC7 "Count" ["x"] ["g"] true).rows,
      (∀ c ∈ ["x"], lookupCell
          (summarize_csv_files exDfC7 "Count" ["x"] ["g"] true).cols row c
          = aggCell exDfC7 ["g"] AggOp.count c [some (Val.num 1)]) ∧
      (∀ c ∈ exDfC7.cols, c ∉ ["x"] → c ∉ ["g"] →
          lookupCell
            (summarize_csv_files exDfC7 "Count" ["x"] ["g"] true).cols row c
            = aggFirst (colCells exDfC7
                (groupOf exDfC7 ["g"] [some (Val.num 1)]) c)) :=
  (include_all_layers_aggregates_and_first_nonnull exDfC7 "Count" ["x"] ["g"]
    AggOp.count (by rfl) (by decide) (by decide) (by decide) (by decide)
    (by decide)).2 [some (Val.num 1)] (by decide)
